import Mathlib

/-!
Verification of the 30Min study-pack application (Supra26/30Min).

The repository is a React/TypeScript frontend over a FastAPI backend that
turns an uploaded PDF into a time-boxed study pack.  The frontend sources
(components, stores, API client) are embedded directly below.  The backend
content-selection pipeline (chunking, scoring, budget selection,
condensation) is present in the repository only through its README and the
specification; where a claim depends on it, the relevant component is
modelled from the specification and the definition says so in its doc
comment.

Numbers that are JavaScript/Python floats in the sources (importance
scores, reading times in minutes) are modelled as rationals; the claims
only compare them, and the comparisons are the same.
-/

namespace ThirtyMin

/-! ## Frontend data model (stores/pricingStore.ts, stores/authStore.ts) -/

/-- UserQuota, from `stores/pricingStore.ts`: the quota object returned by
`GET /pricing/user-quota`. -/
structure UserQuota where
  plan_type : String
  pdfs_used : Nat
  pdf_limit : Option Nat
  can_process : Bool
  message : String
deriving DecidableEq, Repr

/-- User, from `stores/authStore.ts`. -/
structure User where
  id : Nat
  email : String
  name : String
deriving DecidableEq, Repr

/-- AuthState, from `stores/authStore.ts`: the zustand auth store state. -/
structure AuthState where
  user : Option User
  token : Option String
  isAuthenticated : Bool
  isLoading : Bool
  error : Option String
deriving DecidableEq, Repr

/-- The slice of the auth store persisted to localStorage: `partialize` in
`stores/authStore.ts` keeps exactly `user`, `token` and `isAuthenticated`. -/
structure PersistedAuth where
  user : Option User
  token : Option String
  isAuthenticated : Bool
deriving DecidableEq, Repr

/-- The persistence projection of `stores/authStore.ts` (its `partialize`
function, lines 72-76). -/
def persistAuth (s : AuthState) : PersistedAuth :=
  { user := s.user, token := s.token, isAuthenticated := s.isAuthenticated }

/-- handleTokenExpiration, from `stores/authStore.ts` lines 60-68: clears
user, token and authentication flag and records the session-expired
message. -/
def handleTokenExpiration (s : AuthState) : AuthState :=
  { s with
    user := none
    token := none
    isAuthenticated := false
    error := some ("Your session has expired. Please sign in again.") }

/-- The axios response interceptor of `services/api.ts` lines 47-60: on an
HTTP 401 response it invokes `handleTokenExpiration` on the auth store;
any other status leaves the store untouched. -/
def responseInterceptor (s : AuthState) (status : Nat) : AuthState :=
  if status = 401 then handleTokenExpiration s else s

/-! ## TimeSelector (components/TimeSelector.tsx) -/

/-- One entry of the `timeOptions` array in `components/TimeSelector.tsx`
(the presentation-only fields icon/colors are omitted). -/
structure TimeOption where
  minutes : Nat
  title : String
  description : String
deriving DecidableEq, Repr

/-- timeOptions, from `components/TimeSelector.tsx` lines 13-54. -/
def timeOptions : List TimeOption :=
  [ { minutes := 10
      title := "Quick Review"
      description := "Essential highlights and key points" }
  , { minutes := 20
      title := "Focused Study"
      description := "Core concepts with detailed summaries" }
  , { minutes := 30
      title := "Deep Dive"
      description := "Comprehensive analysis with quiz" }
  , { minutes := 60
      title := "Master Class"
      description := "Complete understanding with minimal summarization" } ]

/-- The set of values the TimeSelector can pass to `onTimeSelect`: each
rendered button calls `onTimeSelect(option.minutes)` for its own option
(TimeSelector.tsx line 75), so exactly the `minutes` fields of
`timeOptions`. -/
def selectableMinutes : List Nat :=
  timeOptions.map (fun o => o.minutes)

/-! ## API client (services/api.ts) -/

/-- One multipart form field appended to a FormData object. -/
structure FormField where
  name : String
  value : String
deriving DecidableEq, Repr

/-- An outgoing API request, reduced to the parts the claims are about. -/
structure ApiRequest where
  path : String
  fields : List FormField
deriving DecidableEq, Repr

/-- pdfAPI.processPDF, from `services/api.ts` lines 96-109: appends the
file and the stringified time limit to a FormData object and posts it to
`/process-pdf`.  The file is represented by its name. -/
def processPDF (fileName : String) (timeLimit : Nat) : ApiRequest :=
  { path := "/process-pdf"
    fields := [ { name := "file", value := fileName }
              , { name := "time_limit", value := toString timeLimit } ] }

/-! ## FileUpload (components/FileUpload.tsx) -/

/-- A browser File object, reduced to name and MIME type. -/
structure BrowserFile where
  name : String
  type : String
deriving DecidableEq, Repr

/-- handleDrop, from `components/FileUpload.tsx` lines 27-36: forwards the
first dropped file to `onFileSelect` only when `files[0].type` is exactly
the string `application/pdf`; otherwise nothing is forwarded. -/
def handleDrop (files : List BrowserFile) : Option BrowserFile :=
  match files with
  | [] => none
  | f :: _ => if f.type = "application/pdf" then some f else none

/-- handleFileSelect of the FileUpload component (the `<input>` change
handler, `components/FileUpload.tsx` lines 38-43): forwards the first
chosen file unconditionally, with no type check. -/
def handleFileInputChange (files : List BrowserFile) : Option BrowserFile :=
  match files with
  | [] => none
  | f :: _ => some f

/-! ## StudyPack gating and download (components/StudyPack.tsx) -/

/-- One key point of the response (`key_points` entries). -/
structure KeyPoint where
  point : String
  category : String
deriving DecidableEq, Repr

/-- One quiz question of the response. -/
structure QuizQuestion where
  question : String
  options : List String
  correct_answer : String
  explanation : String
deriving DecidableEq, Repr

/-- The render condition of the Key Takeaways card, `StudyPack.tsx` line
237: `userQuota && userQuota.plan_type !== 'free' && keyTakeaways.length > 0`. -/
def showKeyTakeaways (quota : Option UserQuota) (keyTakeaways : List KeyPoint) : Bool :=
  match quota with
  | none => false
  | some q => decide (q.plan_type ≠ "free") && decide (0 < keyTakeaways.length)

/-- The render condition of the key-takeaways upgrade notice, `StudyPack.tsx`
line 304: `userQuota && userQuota.plan_type === 'free'`. -/
def showKeyTakeawaysUpgrade (quota : Option UserQuota) : Bool :=
  match quota with
  | none => false
  | some q => decide (q.plan_type = "free")

/-- The render condition of the Quiz card, `StudyPack.tsx` line 329:
`userQuota && userQuota.plan_type !== 'free' && quiz && quiz.length > 0`
(`quiz` is an array, hence truthy; its length decides). -/
def showQuizSection (quota : Option UserQuota) (quiz : List QuizQuestion) : Bool :=
  match quota with
  | none => false
  | some q => decide (q.plan_type ≠ "free") && decide (0 < quiz.length)

/-- The render condition of the quiz upgrade notice, `StudyPack.tsx` line
378: `userQuota && userQuota.plan_type === 'free'`. -/
def showQuizUpgrade (quota : Option UserQuota) : Bool :=
  match quota with
  | none => false
  | some q => decide (q.plan_type = "free")

/-- What handleDownload does before any network traffic. -/
inductive DownloadAction where
  | alert (msg : String)
  | request (historyId : Nat)
deriving DecidableEq, Repr

/-- handleDownload, from `StudyPack.tsx` lines 47-70: `if (!historyId)` it
alerts and returns; otherwise it requests `/download-pdf/{historyId}`.
JavaScript treats the number 0 as falsy, so `historyId === 0` also takes
the alert branch. -/
def handleDownload (historyId : Option Nat) : DownloadAction :=
  match historyId with
  | none => .alert ("Download not available for this session")
  | some id =>
    if id = 0 then .alert ("Download not available for this session")
    else .request id

/-- JavaScript truthiness of the optional numeric `historyId`. -/
def truthyId (historyId : Option Nat) : Bool :=
  match historyId with
  | none => false
  | some id => decide (id ≠ 0)

/-- The `disabled` expression of the download button, `StudyPack.tsx` line
127: `downloading || !historyId || (userQuota && userQuota.plan_type === 'free')`. -/
def downloadDisabled (downloading : Bool) (historyId : Option Nat)
    (quota : Option UserQuota) : Bool :=
  downloading || !truthyId historyId ||
    (match quota with
     | some q => decide (q.plan_type = "free")
     | none => false)

/-! ## App screen state machine (App.tsx) and ProcessingLoader -/

/-- The `AppState` union type of App.tsx line 18. -/
inductive AppScreen where
  | upload
  | timeSelect
  | processing
  | results
  | history
  | historyItem
  | authRequired
  | pricing
  | subscription
deriving DecidableEq, Repr

/-- The quota-exhaustion test appearing verbatim in App.tsx lines 69-74 and
ProcessingLoader.tsx lines 54-59:
`quota.plan_type === 'free' && quota.pdf_limit !== null && quota.pdfs_used >= quota.pdf_limit`. -/
def quotaExhausted (q : UserQuota) : Bool :=
  decide (q.plan_type = "free") &&
    (match q.pdf_limit with
     | some lim => decide (lim ≤ q.pdfs_used)
     | none => false)

/-- The outcome of one `handleFileSelect` invocation: the state transition
taken (none means the handler returned without changing the screen), the
modal flag, and the quota error message set. -/
structure FileSelectOutcome where
  nextScreen : Option AppScreen
  showSubscribeModal : Bool
  quotaError : Option String
deriving DecidableEq, Repr

/-- handleFileSelect, from App.tsx lines 65-95 (success path of
`fetchUserQuota`): a free-plan user at their PDF limit gets the
out-of-free-PDFs modal and the handler returns; an unauthenticated user is
sent to the auth-required screen; otherwise the app moves to time-select. -/
def handleFileSelect (quota : UserQuota) (isAuthenticated : Bool) : FileSelectOutcome :=
  if quotaExhausted quota then
    { nextScreen := none
      showSubscribeModal := true
      quotaError := some ("You have used all 3 free PDFs. Please purchase a plan to continue.") }
  else if !isAuthenticated then
    { nextScreen := some .authRequired, showSubscribeModal := false, quotaError := none }
  else
    { nextScreen := some .timeSelect, showSubscribeModal := false, quotaError := none }

/-- What the ProcessingLoader effect does before the upload request. -/
inductive LoaderAction where
  | showModal
  | sendUpload
deriving DecidableEq, Repr

/-- The quota gate at the head of `processPDF` in ProcessingLoader.tsx lines
52-63: when the store quota is a free plan at its limit, the subscribe
modal is shown and the function returns before `pdfAPI.processPDF` is
called; otherwise the upload request is sent. -/
def processLoaderGate (quota : Option UserQuota) : LoaderAction :=
  match quota with
  | some q => if quotaExhausted q then .showModal else .sendUpload
  | none => .sendUpload

/-! ## StudyPack sections mapping (StudyPack.tsx lines 72-97) -/

/-- One chunk of the `condensed_content` array of the processed response,
as the frontend reads it. -/
structure RChunk where
  text : String
  page_number : Nat
  word_count : Nat
  reading_time_minutes : ℚ
  importance_score : ℚ
  headings : List String
  keywords : List String
deriving DecidableEq, Repr

/-- One entry of the `sections` array built in StudyPack.tsx lines 74-80. -/
structure Section where
  title : String
  importance : String
  content : String
  keyPoints : List String
  readingTime : ℚ
deriving DecidableEq, Repr

/-- The title expression of StudyPack.tsx line 75:
`chunk.headings?.[0] || backtick-Section (index+1)`.  The JavaScript `||`
falls through on any falsy value, so a present but *empty* first heading
also yields the fallback title. -/
def sectionTitle (c : RChunk) (index : Nat) : String :=
  match c.headings with
  | [] => ("Section ") ++ toString (index + 1)
  | h :: _ => if h = "" then ("Section ") ++ toString (index + 1) else h

/-- The importance expression of StudyPack.tsx line 76:
`chunk.importance_score > 0.7 ? High : chunk.importance_score > 0.4 ? Medium : Low`. -/
def importanceTier (score : ℚ) : String :=
  if 7/10 < score then ("High") else if 4/10 < score then ("Medium") else ("Low")

/-- The per-chunk section construction of StudyPack.tsx lines 74-80. -/
def sectionOfChunk (c : RChunk) (index : Nat) : Section :=
  { title := sectionTitle c index
    importance := importanceTier c.importance_score
    content := c.text
    keyPoints := c.keywords
    readingTime := c.reading_time_minutes }

/-- The indexed map `processedData.condensed_content.map((chunk, index) => ...)`
of StudyPack.tsx lines 74-80, with the running index made explicit. -/
def buildSectionsFrom (index : Nat) : List RChunk → List Section
  | [] => []
  | c :: cs => sectionOfChunk c index :: buildSectionsFrom (index + 1) cs

/-- The `sections` array of StudyPack.tsx: the in-order indexed map over
`condensed_content` starting at index 0. -/
def buildSections (condensed : List RChunk) : List Section :=
  buildSectionsFrom 0 condensed

/-! ## Backend content-selection pipeline, modelled from the spec

The Python backend sources are not part of src/ (only `backend/README.md`
and `backend/render.yaml` are), so the Budget Selector and the Condenser
are modelled from the specification (§4.4, §4.5, §4.6, §7) and the
backend README, faithful to their words. -/

/-- Modelled from the spec: a Chunk (§3), the unit of selection.  `pos` is
the document position used for presentation order; `readTime` is the
estimated reading time in minutes. -/
structure Chunk where
  text : String
  pos : Nat
  page_number : Nat
  word_count : Nat
  headings : List String
  keywords : List String
  score : ℚ
  readTime : ℚ
deriving DecidableEq, Repr

/-- Selection order (§4.4): importance score descending.  Used with a
stable insertion sort, equal scores keep their original relative order. -/
def scoreGe (a b : Chunk) : Prop := b.score ≤ a.score

instance : DecidableRel scoreGe :=
  fun a b => inferInstanceAs (Decidable (b.score ≤ a.score))

/-- Presentation order (§4.4): original document position ascending. -/
def posLe (a b : Chunk) : Prop := a.pos ≤ b.pos

instance : DecidableRel posLe :=
  fun a b => inferInstanceAs (Decidable (a.pos ≤ b.pos))

instance : IsTotal Chunk posLe :=
  ⟨fun a b => Nat.le_total a.pos b.pos⟩

instance : IsTrans Chunk posLe :=
  ⟨fun _ _ _ hab hbc => Nat.le_trans hab hbc⟩

/-- Total estimated reading time of a chunk list, in minutes. -/
def totalReadTime (l : List Chunk) : ℚ :=
  (l.map Chunk.readTime).sum

/-- Total word count of a chunk list. -/
def totalWords (l : List Chunk) : Nat :=
  (l.map Chunk.word_count).sum

/-- Modelled from the spec: the greedy acceptance pass of the Budget
Selector (§4.4) over the score-ranked candidates: accept a chunk while the
running total stays at or under the budget; once a chunk would exceed it,
skip it and keep evaluating later candidates. -/
def greedyPick (budget : ℚ) : List Chunk → ℚ → List Chunk
  | [], _ => []
  | c :: rest, used =>
    if used + c.readTime ≤ budget then c :: greedyPick budget rest (used + c.readTime)
    else greedyPick budget rest used

/-- The chunk with minimal reading time among `c :: cs`, used for the
budget-too-small edge case of §4.4. -/
def smallestChunk (c : Chunk) (cs : List Chunk) : Chunk :=
  cs.foldl (fun a b => if b.readTime < a.readTime then b else a) c

/-- SelectionResult (§3): the chosen subset in presentation order plus
bookkeeping. -/
structure SelectionResult where
  selected : List Chunk
  totalTime : ℚ
  total_word_count : Nat
  budgetWarning : Bool
deriving DecidableEq, Repr

/-- Modelled from the spec: the Budget Selector (§4.4); the backend
implementation is not under src/.  Candidates are ranked by score
descending (stable), accepted greedily while the running reading time fits
the budget, and the accepted subset is re-sorted back into document order
for presentation.  If nothing fits — the single smallest chunk already
exceeds the budget — that chunk is selected alone and a warning is
flagged. -/
def budgetSelect (chunks : List Chunk) (budget : ℚ) : SelectionResult :=
  match chunks with
  | [] =>
    { selected := [], totalTime := 0, total_word_count := 0, budgetWarning := false }
  | c :: cs =>
    match greedyPick budget (List.insertionSort scoreGe (c :: cs)) 0 with
    | [] =>
      let small := smallestChunk c cs
      { selected := [small]
        totalTime := small.readTime
        total_word_count := small.word_count
        budgetWarning := true }
    | p :: ps =>
      let ordered := List.insertionSort posLe (p :: ps)
      { selected := ordered
        totalTime := totalReadTime ordered
        total_word_count := totalWords ordered
        budgetWarning := false }

/-! ## Condenser and assembly, modelled from the spec -/

/-- Whitespace word count used for recomputed word counts after
condensation. -/
def wordCount (s : String) : Nat :=
  ((s.split (fun ch => ch = ' ')).filter (fun w => !w.isEmpty)).length

/-- Modelled from the spec: the Condenser (§4.5); the backend
implementation is not under src/.  The external summarization capability
is the `summarize` argument; its input is truncated to `maxInput`
characters before sending.  On success the chunk is replaced by one with
the shortened text, same headings and keywords, recomputed word count and
reading time; on failure or timeout (`none`) the original chunk is
returned unchanged together with an advisory processing note. -/
def condenseChunk (summarize : String → Option String) (maxInput : Nat) (wpm : ℚ)
    (c : Chunk) : Chunk × List String :=
  match summarize (c.text.take maxInput) with
  | some t =>
    ({ c with text := t, word_count := wordCount t, readTime := (wordCount t : ℚ) / wpm }, [])
  | none => (c, ["Summarization unavailable for one section; original text kept."])

/-- Modelled from the spec: the condensation pass over the selected chunks
(§4.5): only chunks whose reading time exceeds the per-chunk ceiling are
sent for condensation, the rest pass through unchanged; advisory notes
from failed condensations are collected. -/
def condenseAll (summarize : String → Option String) (threshold : ℚ) (maxInput : Nat)
    (wpm : ℚ) : List Chunk → List Chunk × List String
  | [] => ([], [])
  | c :: cs =>
    let rest := condenseAll summarize threshold maxInput wpm cs
    if threshold < c.readTime then
      let step := condenseChunk summarize maxInput wpm c
      (step.1 :: rest.1, step.2 ++ rest.2)
    else
      (c :: rest.1, rest.2)

/-- StudyPack (§3): the final output structure, reduced to the fields the
claims are about. -/
structure StudyPack where
  condensed_content : List Chunk
  key_points : List KeyPoint
  quiz : List QuizQuestion
  total_reading_time_minutes : ℚ
  total_word_count : Nat
  original_filename : String
  processing_notes : List String
deriving Repr

/-- Modelled from the spec: the pipeline from a SelectionResult to the
final StudyPack (§4.5, §4.6, §7); the backend implementation is not under
src/.  Per the propagation policy of §7, only extraction errors (upstream
of selection, not part of this stage) may cross the pipeline boundary as
failures; degraded-service errors from condensation are absorbed into
processing notes, so assembly of a selection always succeeds.  Key points
and quiz population are plan-tier policy outside this stage. -/
def assembleAfterSelect (summarize : String → Option String) (threshold : ℚ)
    (maxInput : Nat) (wpm : ℚ) (fileName : String) (sel : SelectionResult) :
    Except String StudyPack :=
  let step := condenseAll summarize threshold maxInput wpm sel.selected
  Except.ok
    { condensed_content := step.1
      key_points := []
      quiz := []
      total_reading_time_minutes := totalReadTime step.1
      total_word_count := totalWords step.1
      original_filename := fileName
      processing_notes := step.2 }

/-! ## Concrete instances used in witnesses and counterexamples -/

/-- Concrete chunk for the Budget Selector witness: 500 words, two minutes
of reading time. -/
def c1Chunk : Chunk :=
  { text := "alpha beta"
    pos := 0
    page_number := 1
    word_count := 500
    headings := ["Intro"]
    keywords := ["alpha"]
    score := 1/2
    readTime := 2 }

/-- Concrete response chunk for the order-preservation witness. -/
def c3Chunk : RChunk :=
  { text := "body"
    page_number := 1
    word_count := 4
    reading_time_minutes := 1
    importance_score := 1/2
    headings := ["Intro"]
    keywords := ["body"] }

/-- Concrete selection for the condenser-fallback witness: one chunk over
the per-chunk ceiling. -/
def c4Selection : SelectionResult :=
  { selected :=
      [ { text := "a long section"
          pos := 0
          page_number := 1
          word_count := 2000
          headings := []
          keywords := []
          score := 1
          readTime := 8 } ]
    totalTime := 8
    total_word_count := 2000
    budgetWarning := false }

/-- Concrete free-plan quota for the plan-tier gating witness. -/
def c5Quota : UserQuota :=
  { plan_type := "free"
    pdfs_used := 1
    pdf_limit := some 3
    can_process := true
    message := "" }

/-- Concrete non-empty key-point list for the plan-tier gating witness. -/
def c5Points : List KeyPoint :=
  [ { point := "a key point", category := "normal" } ]

/-- Concrete non-empty quiz for the plan-tier gating witness. -/
def c5Quiz : List QuizQuestion :=
  [ { question := "q"
      options := ["a", "b"]
      correct_answer := "a"
      explanation := "e" } ]

/-- Concrete exhausted free quota for the quota-blocking witness. -/
def c6Quota : UserQuota :=
  { plan_type := "free"
    pdfs_used := 3
    pdf_limit := some 3
    can_process := false
    message := "" }

/-- Concrete response chunk whose first heading is present but is the
empty string: the input on which the stated title rule fails. -/
def c7Chunk : RChunk :=
  { text := "alpha beta"
    page_number := 1
    word_count := 2
    reading_time_minutes := 1
    importance_score := 1/2
    headings := [""]
    keywords := ["alpha"] }

/-- Concrete response chunk with an ordinary non-empty heading, for the
amended-claim witness. -/
def c7Good : RChunk :=
  { text := "gamma"
    page_number := 2
    word_count := 1
    reading_time_minutes := 1
    importance_score := 9/10
    headings := ["Overview"]
    keywords := [] }

/-- Concrete non-PDF browser file for the upload-asymmetry witness. -/
def c8File : BrowserFile :=
  { name := "notes.txt", type := "text/plain" }

/-- Concrete authenticated store state for the session-expiry witness. -/
def c10State : AuthState :=
  { user := some { id := 7, email := "a@b.c", name := "A" }
    token := some ("jwt-token")
    isAuthenticated := true
    isLoading := false
    error := none }

/-! ## Helper lemmas -/

theorem buildSectionsFrom_length (k : Nat) (l : List RChunk) :
    (buildSectionsFrom k l).length = l.length := by
  induction l generalizing k with
  | nil => rfl
  | cons c cs ih => simp [buildSectionsFrom, ih]

theorem buildSectionsFrom_get (k : Nat) (l : List RChunk) (i : Nat)
    (hi : i < (buildSectionsFrom k l).length) (hi2 : i < l.length) :
    (buildSectionsFrom k l).get ⟨i, hi⟩ = sectionOfChunk (l.get ⟨i, hi2⟩) (k + i) := by
  induction l generalizing k i with
  | nil => exact absurd hi2 (by simp)
  | cons c cs ih =>
    cases i with
    | zero => simp [buildSectionsFrom]
    | succ j =>
      have hj : j < cs.length := by simpa using hi2
      simp only [buildSectionsFrom, List.get_cons_succ]
      rw [ih (k + 1) j (by simpa [buildSectionsFrom_length] using hj) hj]
      congr 1
      omega

theorem greedyPick_le (budget : ℚ) (l : List Chunk) : ∀ used : ℚ,
    greedyPick budget l used = [] ∨
      used + totalReadTime (greedyPick budget l used) ≤ budget := by
  induction l with
  | nil => intro used; left; rfl
  | cons c rest ih =>
    intro used
    by_cases h : used + c.readTime ≤ budget
    · right
      rcases ih (used + c.readTime) with h2 | h2
      · simp only [greedyPick, if_pos h, h2, totalReadTime, List.map_cons, List.map_nil,
          List.sum_cons, List.sum_nil]
        linarith
      · unfold totalReadTime at h2 ⊢
        simp only [greedyPick, if_pos h, List.map_cons, List.sum_cons]
        linarith
    · rcases ih used with h2 | h2
      · left
        simpa [greedyPick, h] using h2
      · right
        simpa [greedyPick, h] using h2

theorem greedyPick_nil (budget : ℚ) (l : List Chunk) : ∀ used : ℚ,
    greedyPick budget l used = [] → ∀ x ∈ l, budget < used + x.readTime := by
  induction l with
  | nil =>
    intro used _ x hx
    cases hx
  | cons c rest ih =>
    intro used hnil x hx
    by_cases h : used + c.readTime ≤ budget
    · exact absurd hnil (by simp [greedyPick, h])
    · rcases List.mem_cons.mp hx with rfl | hx2
      · exact lt_of_not_le h
      · exact ih used (by simpa [greedyPick, h] using hnil) x hx2

theorem smallestChunk_mem (c : Chunk) (cs : List Chunk) : smallestChunk c cs ∈ c :: cs := by
  unfold smallestChunk
  induction cs generalizing c with
  | nil => simp
  | cons d ds ih =>
    simp only [List.foldl_cons]
    by_cases h : d.readTime < c.readTime
    · simp only [if_pos h]
      rcases List.mem_cons.mp (ih d) with h2 | h2
      · simp [h2]
      · simp [h2]
    · simp only [if_neg h]
      rcases List.mem_cons.mp (ih c) with h2 | h2
      · simp [h2]
      · simp [h2]

theorem totalReadTime_insertionSort_posLe (l : List Chunk) :
    totalReadTime (List.insertionSort posLe l) = totalReadTime l := by
  unfold totalReadTime
  exact List.Perm.sum_eq ((List.perm_insertionSort posLe l).map Chunk.readTime)

theorem condenseAll_failing (threshold : ℚ) (maxInput : Nat) (wpm : ℚ)
    (l : List Chunk) :
    (condenseAll (fun _ => none) threshold maxInput wpm l).1 = l
    ∧ ∀ note ∈ (condenseAll (fun _ => none) threshold maxInput wpm l).2,
        note = "Summarization unavailable for one section; original text kept." := by
  induction l with
  | nil =>
    constructor
    · rfl
    · intro note hnote
      cases hnote
  | cons c cs ih =>
    by_cases h : threshold < c.readTime
    · constructor
      · simp only [condenseAll, if_pos h, condenseChunk]
        exact congrArg (c :: ·) ih.1
      · intro note hnote
        simp only [condenseAll, if_pos h, condenseChunk, List.mem_append,
          List.mem_singleton] at hnote
        rcases hnote with rfl | hnote
        · rfl
        · exact ih.2 note hnote
    · constructor
      · simp only [condenseAll, if_neg h]
        exact congrArg (c :: ·) ih.1
      · intro note hnote
        simp only [condenseAll, if_neg h] at hnote
        exact ih.2 note hnote

/-! ## Claim theorems -/

/-- C1: for every SelectionResult produced by the Budget Selector, the
total estimated reading time of the selected chunks is at most the
requested time budget; the only exception is when even the single
smallest chunk exceeds the budget, in which case that one chunk is
selected alone and the warning flag is set. -/
theorem budget_selector_respects_budget (chunks : List Chunk) (budget : ℚ)
    (hb : 0 ≤ budget) :
    (totalReadTime (budgetSelect chunks budget).selected ≤ budget
      ∧ (budgetSelect chunks budget).budgetWarning = false)
    ∨ ((budgetSelect chunks budget).budgetWarning = true
      ∧ ∃ c, (budgetSelect chunks budget).selected = [c] ∧ c ∈ chunks
          ∧ budget < c.readTime) := by
  cases chunks with
  | nil =>
    left
    exact ⟨by simpa [budgetSelect, totalReadTime] using hb, rfl⟩
  | cons c cs =>
    cases hgp : greedyPick budget (List.insertionSort scoreGe (c :: cs)) 0 with
    | nil =>
      right
      have hmem : smallestChunk c cs ∈ List.insertionSort scoreGe (c :: cs) :=
        ((List.perm_insertionSort scoreGe (c :: cs)).mem_iff).mpr (smallestChunk_mem c cs)
      have hbig := greedyPick_nil budget _ 0 hgp _ hmem
      refine ⟨?_, smallestChunk c cs, ?_, smallestChunk_mem c cs, by simpa using hbig⟩
      · simp only [budgetSelect, hgp]
      · simp only [budgetSelect, hgp]
    | cons p ps =>
      left
      constructor
      · have h1 := greedyPick_le budget (List.insertionSort scoreGe (c :: cs)) 0
        rw [hgp] at h1
        rcases h1 with h1 | h1
        · cases h1
        · simp only [budgetSelect, hgp]
          rw [totalReadTime_insertionSort_posLe]
          linarith
      · simp only [budgetSelect, hgp]

/-- Witness for C1 at a concrete selection: one two-minute chunk against a
ten-minute budget. -/
theorem budget_selector_respects_budget_witness :
    (totalReadTime (budgetSelect [c1Chunk] 10).selected ≤ 10
      ∧ (budgetSelect [c1Chunk] 10).budgetWarning = false)
    ∨ ((budgetSelect [c1Chunk] 10).budgetWarning = true
      ∧ ∃ c, (budgetSelect [c1Chunk] 10).selected = [c] ∧ c ∈ [c1Chunk]
          ∧ 10 < c.readTime) :=
  budget_selector_respects_budget [c1Chunk] 10 (by norm_num)

/-- C2: the pipeline is invoked with a PDF file and a target reading time
in minutes drawn from the enumerated set 10/20/30/60: the TimeSelector
only passes one of these four values to onTimeSelect, and
pdfAPI.processPDF posts the file and that time_limit as multipart form
fields to /process-pdf. -/
theorem pipeline_invocation_enumerated_times (t : Nat) (ht : t ∈ selectableMinutes)
    (fileName : String) :
    (t = 10 ∨ t = 20 ∨ t = 30 ∨ t = 60)
    ∧ (processPDF fileName t).path = "/process-pdf"
    ∧ (processPDF fileName t).fields =
        [ { name := "file", value := fileName }
        , { name := "time_limit", value := toString t } ] := by
  refine ⟨?_, rfl, rfl⟩
  have heq : selectableMinutes = [10, 20, 30, 60] := rfl
  rw [heq] at ht
  simpa using ht

/-- Witness for C2 at the ten-minute option. -/
theorem pipeline_invocation_enumerated_times_witness :
    ((10 : Nat) = 10 ∨ (10 : Nat) = 20 ∨ (10 : Nat) = 30 ∨ (10 : Nat) = 60)
    ∧ (processPDF ("doc.pdf") 10).path = "/process-pdf"
    ∧ (processPDF ("doc.pdf") 10).fields =
        [ { name := "file", value := "doc.pdf" }
        , { name := "time_limit", value := toString (10 : Nat) } ] :=
  pipeline_invocation_enumerated_times 10 (by decide) ("doc.pdf")

/-- C3: the presentation order of selected chunks is their original
document order regardless of score order — the Budget Selector re-sorts
the accepted subset into document position order — and the frontend
renders the condensed_content list in exactly the order received: the
i-th displayed section is derived from the i-th chunk, with no
re-sorting. -/
theorem selection_presented_in_document_order :
    (∀ (chunks : List Chunk) (budget : ℚ),
        (budgetSelect chunks budget).selected.Pairwise posLe)
    ∧ (∀ condensed : List RChunk, (buildSections condensed).length = condensed.length)
    ∧ (∀ (condensed : List RChunk) (i : Nat) (hi : i < (buildSections condensed).length)
        (hi2 : i < condensed.length),
        (buildSections condensed).get ⟨i, hi⟩ = sectionOfChunk (condensed.get ⟨i, hi2⟩) i) := by
  refine ⟨?_, ?_, ?_⟩
  · intro chunks budget
    cases chunks with
    | nil => simp [budgetSelect]
    | cons c cs =>
      cases hgp : greedyPick budget (List.insertionSort scoreGe (c :: cs)) 0 with
      | nil =>
        simp only [budgetSelect, hgp]
        exact List.pairwise_singleton posLe (smallestChunk c cs)
      | cons p ps =>
        simp only [budgetSelect, hgp]
        exact List.sorted_insertionSort posLe (p :: ps)
  · intro condensed
    exact buildSectionsFrom_length 0 condensed
  · intro condensed i hi hi2
    simpa using buildSectionsFrom_get 0 condensed i hi hi2

/-- Witness for C3 at a concrete one-chunk response. -/
theorem selection_presented_in_document_order_witness :
    (buildSections [c3Chunk]).get ⟨0, by decide⟩ = sectionOfChunk c3Chunk 0 := by
  simpa using selection_presented_in_document_order.2.2 [c3Chunk] 0 (by decide) (by decide)

/-- C4: if every external summarization call fails or times out, the
pipeline still returns a complete StudyPack with no pipeline-level error,
every selected chunk appears in its original pre-condensation form, and
each failure is reported only as an advisory processing note. -/
theorem condenser_fallback_safety (threshold : ℚ) (maxInput : Nat) (wpm : ℚ)
    (fileName : String) (sel : SelectionResult) :
    ∃ pack : StudyPack,
      assembleAfterSelect (fun _ => none) threshold maxInput wpm fileName sel =
        Except.ok pack
      ∧ pack.condensed_content = sel.selected
      ∧ ∀ note ∈ pack.processing_notes,
          note = "Summarization unavailable for one section; original text kept." := by
  refine ⟨_, rfl, ?_, ?_⟩
  · exact (condenseAll_failing threshold maxInput wpm sel.selected).1
  · exact (condenseAll_failing threshold maxInput wpm sel.selected).2

/-- Witness for C4 at a concrete selection with an oversized chunk. -/
theorem condenser_fallback_safety_witness :
    ∃ pack : StudyPack,
      assembleAfterSelect (fun _ => none) 5 3000 250 ("doc.pdf") c4Selection =
        Except.ok pack
      ∧ pack.condensed_content = c4Selection.selected
      ∧ ∀ note ∈ pack.processing_notes,
          note = "Summarization unavailable for one section; original text kept." :=
  condenser_fallback_safety 5 3000 250 ("doc.pdf") c4Selection

/-- C5: when the rendered quota has plan_type free, neither the Key
Takeaways card nor the Quiz card is shown even for non-empty lists, and
the upgrade notices are shown instead; on any non-free plan both cards
are shown exactly when their lists are non-empty. -/
theorem plan_tier_gating (q : UserQuota) (kt : List KeyPoint) (qz : List QuizQuestion) :
    (q.plan_type = "free" →
      showKeyTakeaways (some q) kt = false
      ∧ showQuizSection (some q) qz = false
      ∧ showKeyTakeawaysUpgrade (some q) = true
      ∧ showQuizUpgrade (some q) = true)
    ∧ (q.plan_type ≠ "free" →
      (showKeyTakeaways (some q) kt = true ↔ kt ≠ [])
      ∧ (showQuizSection (some q) qz = true ↔ qz ≠ [])) := by
  constructor
  · intro hfree
    refine ⟨?_, ?_, ?_, ?_⟩ <;>
      simp [showKeyTakeaways, showQuizSection, showKeyTakeawaysUpgrade,
        showQuizUpgrade, hfree]
  · intro hnot
    constructor
    · simp [showKeyTakeaways, hnot, List.length_pos]
    · simp [showQuizSection, hnot, List.length_pos]

/-- Witness for C5 at a concrete free-plan quota with non-empty lists. -/
theorem plan_tier_gating_witness :
    showKeyTakeaways (some c5Quota) c5Points = false
    ∧ showQuizSection (some c5Quota) c5Quiz = false
    ∧ showKeyTakeawaysUpgrade (some c5Quota) = true
    ∧ showQuizUpgrade (some c5Quota) = true :=
  (plan_tier_gating c5Quota c5Points c5Quiz).1 rfl

/-- C6: a file selection by a free-plan user whose pdfs_used has reached
pdf_limit never reaches the time-select or processing screen:
handleFileSelect shows the out-of-free-PDFs modal and returns, and the
same quota check in the ProcessingLoader blocks again before the upload
request is sent. -/
theorem quota_exhausted_blocks_processing (q : UserQuota) (lim : Nat) (auth : Bool)
    (h1 : q.plan_type = "free") (h2 : q.pdf_limit = some lim)
    (h3 : lim ≤ q.pdfs_used) :
    (handleFileSelect q auth).nextScreen = none
    ∧ (handleFileSelect q auth).nextScreen ≠ some AppScreen.timeSelect
    ∧ (handleFileSelect q auth).nextScreen ≠ some AppScreen.processing
    ∧ (handleFileSelect q auth).showSubscribeModal = true
    ∧ (handleFileSelect q auth).quotaError =
        some ("You have used all 3 free PDFs. Please purchase a plan to continue.")
    ∧ processLoaderGate (some q) = LoaderAction.showModal := by
  have hqe : quotaExhausted q = true := by
    simp [quotaExhausted, h1, h2, h3]
  refine ⟨?_, ?_, ?_, ?_, ?_, ?_⟩ <;>
    simp [handleFileSelect, processLoaderGate, hqe]

/-- Witness for C6 at a concrete exhausted free quota. -/
theorem quota_exhausted_blocks_processing_witness :
    (handleFileSelect c6Quota true).nextScreen = none
    ∧ (handleFileSelect c6Quota true).nextScreen ≠ some AppScreen.timeSelect
    ∧ (handleFileSelect c6Quota true).nextScreen ≠ some AppScreen.processing
    ∧ (handleFileSelect c6Quota true).showSubscribeModal = true
    ∧ (handleFileSelect c6Quota true).quotaError =
        some ("You have used all 3 free PDFs. Please purchase a plan to continue.")
    ∧ processLoaderGate (some c6Quota) = LoaderAction.showModal :=
  quota_exhausted_blocks_processing c6Quota 3 true rfl rfl (by decide)

/-- C7 counterexample: a chunk whose first heading is present but empty
gets the fallback title Section 1, not its first heading, because the
JavaScript or-expression falls through on the empty string; this refutes
the claim that the title is the first heading whenever the chunk has
headings. -/
theorem sections_render_counterexample :
    c7Chunk.headings = [""]
    ∧ buildSections [c7Chunk] = [sectionOfChunk c7Chunk 0]
    ∧ (sectionOfChunk c7Chunk 0).title = "Section 1"
    ∧ ("Section 1" : String) ≠ "" := by
  refine ⟨rfl, rfl, ?_, by decide⟩
  decide

/-- C7 (amended): the displayed section list is the in-order image of
condensed_content where the i-th section takes its content from the
chunk text, its key points from the chunk keywords, its importance tier
is High exactly above 0.7, Medium exactly in (0.4, 0.7], Low otherwise,
and its title is the chunk's first heading when that heading is a
non-empty string, else Section i+1. -/
theorem sections_render_faithful (c : RChunk) (i : Nat) :
    (sectionOfChunk c i).content = c.text
    ∧ (sectionOfChunk c i).keyPoints = c.keywords
    ∧ (sectionOfChunk c i).readingTime = c.reading_time_minutes
    ∧ ((sectionOfChunk c i).importance = "High" ↔ 7/10 < c.importance_score)
    ∧ ((sectionOfChunk c i).importance = "Medium" ↔
        4/10 < c.importance_score ∧ c.importance_score ≤ 7/10)
    ∧ ((sectionOfChunk c i).importance = "Low" ↔ c.importance_score ≤ 4/10)
    ∧ (∀ h rest, c.headings = h :: rest → h ≠ "" → (sectionOfChunk c i).title = h)
    ∧ ((c.headings = [] ∨ c.headings.head? = some "") →
        (sectionOfChunk c i).title = ("Section ") ++ toString (i + 1)) := by
  have hMH : ("Medium" : String) ≠ "High" := by decide
  have hLH : ("Low" : String) ≠ "High" := by decide
  have hLM : ("Low" : String) ≠ "Medium" := by decide
  refine ⟨rfl, rfl, rfl, ?_, ?_, ?_, ?_, ?_⟩
  · unfold sectionOfChunk importanceTier
    by_cases hc1 : 7/10 < c.importance_score
    · simp [hc1]
    · by_cases hc2 : 4/10 < c.importance_score
      · simp only [if_neg hc1, if_pos hc2, hMH, false_iff]
        exact hc1
      · simp only [if_neg hc1, if_neg hc2, hLH, false_iff]
        exact hc1
  · unfold sectionOfChunk importanceTier
    by_cases hc1 : 7/10 < c.importance_score
    · simp only [if_pos hc1, hMH.symm, false_iff]
      intro hc
      linarith [hc.2]
    · by_cases hc2 : 4/10 < c.importance_score
      · simp only [if_neg hc1, if_pos hc2, true_iff]
        exact ⟨hc2, le_of_not_lt hc1⟩
      · simp only [if_neg hc1, if_neg hc2, hLM, false_iff]
        intro hc
        exact hc2 hc.1
  · unfold sectionOfChunk importanceTier
    by_cases hc1 : 7/10 < c.importance_score
    · simp only [if_pos hc1, hLH.symm, false_iff]
      intro hc
      linarith
    · by_cases hc2 : 4/10 < c.importance_score
      · simp only [if_neg hc1, if_pos hc2, hLM.symm, false_iff]
        intro hc
        exact absurd hc2 (not_lt_of_le hc)
      · simp only [if_neg hc1, if_neg hc2, true_iff]
        exact le_of_not_lt hc2
  · intro h rest hh hne
    unfold sectionOfChunk sectionTitle
    rw [hh]
    simp [hne]
  · intro hcase
    unfold sectionOfChunk sectionTitle
    rcases hcase with hnil | hempty
    · rw [hnil]
    · cases hheads : c.headings with
      | nil => rfl
      | cons h rest =>
        rw [hheads] at hempty
        simp only [List.head?_cons, Option.some.injEq] at hempty
        simp [hempty.symm]

/-- Witness for C7 (amended) at a concrete chunk with a non-empty
heading. -/
theorem sections_render_faithful_witness :
    (sectionOfChunk c7Good 0).title = "Overview"
    ∧ (sectionOfChunk c7Good 0).importance = "High" :=
  ⟨(sections_render_faithful c7Good 0).2.2.2.2.2.2.1 ("Overview") [] rfl (by decide),
   (sections_render_faithful c7Good 0).2.2.2.1.mpr (by norm_num [c7Good])⟩

/-- C8: a dropped file is forwarded only when its MIME type is exactly
application/pdf, while a file chosen through the browse dialog is
forwarded with no type check, so a non-PDF file enters via the picker but
is silently ignored when dropped. -/
theorem upload_type_check_asymmetry (f : BrowserFile) (rest : List BrowserFile) :
    (f.type ≠ "application/pdf" → handleDrop (f :: rest) = none)
    ∧ handleFileInputChange (f :: rest) = some f
    ∧ (handleDrop (f :: rest) = some f ↔ f.type = "application/pdf") := by
  refine ⟨?_, rfl, ?_⟩
  · intro hne
    simp [handleDrop, hne]
  · constructor
    · intro hsome
      by_contra hne
      simp [handleDrop, hne] at hsome
    · intro hpdf
      simp [handleDrop, hpdf]

/-- Witness for C8 at a concrete text/plain file: accepted by the picker,
ignored by the drop zone. -/
theorem upload_type_check_asymmetry_witness :
    handleDrop [c8File] = none
    ∧ handleFileInputChange [c8File] = some c8File :=
  ⟨(upload_type_check_asymmetry c8File []).1 (by decide),
   (upload_type_check_asymmetry c8File []).2.1⟩

/-- C9: the frontend never issues a study-pack download request without a
history id — handleDownload alerts and returns when historyId is absent —
and the download button is disabled whenever a download is in progress,
there is no history id, or the quota plan is free. -/
theorem download_guarded (downloading : Bool) (historyId : Option Nat)
    (quota : Option UserQuota) :
    (handleDownload none = DownloadAction.alert ("Download not available for this session"))
    ∧ (∀ id, handleDownload none ≠ DownloadAction.request id)
    ∧ (downloading = true → downloadDisabled downloading historyId quota = true)
    ∧ (historyId = none → downloadDisabled downloading historyId quota = true)
    ∧ (∀ q, quota = some q → q.plan_type = "free" →
        downloadDisabled downloading historyId quota = true) := by
  refine ⟨rfl, ?_, ?_, ?_, ?_⟩
  · intro id h
    simp [handleDownload] at h
  · intro h
    simp [downloadDisabled, h]
  · intro h
    simp [downloadDisabled, h, truthyId]
  · intro q hq hfree
    simp [downloadDisabled, hq, hfree]

/-- Witness for C9 with no history id and an idle button. -/
theorem download_guarded_witness :
    handleDownload none = DownloadAction.alert ("Download not available for this session")
    ∧ downloadDisabled false none none = true :=
  ⟨(download_guarded false none none).1, (download_guarded false none none).2.2.2.1 rfl⟩

/-- C10: whenever an API response arrives with HTTP status 401, the auth
store is reset to the unauthenticated state — user and token null,
isAuthenticated false — with the session-expired error message, and the
persisted slice of the store retains no credentials. -/
theorem session_expiry_resets_auth (s : AuthState) (status : Nat) (h : status = 401) :
    (responseInterceptor s status).user = none
    ∧ (responseInterceptor s status).token = none
    ∧ (responseInterceptor s status).isAuthenticated = false
    ∧ (responseInterceptor s status).error =
        some ("Your session has expired. Please sign in again.")
    ∧ persistAuth (responseInterceptor s status) =
        { user := none, token := none, isAuthenticated := false } := by
  subst h
  refine ⟨?_, ?_, ?_, ?_, ?_⟩ <;>
    simp [responseInterceptor, handleTokenExpiration, persistAuth]

/-- Witness for C10 at a concrete signed-in state receiving a 401. -/
theorem session_expiry_resets_auth_witness :
    (responseInterceptor c10State 401).user = none
    ∧ (responseInterceptor c10State 401).token = none
    ∧ (responseInterceptor c10State 401).isAuthenticated = false
    ∧ (responseInterceptor c10State 401).error =
        some ("Your session has expired. Please sign in again.")
    ∧ persistAuth (responseInterceptor c10State 401) =
        { user := none, token := none, isAuthenticated := false } :=
  session_expiry_resets_auth c10State 401 rfl

end ThirtyMin
